import Mathlib

/-!
Shallow embedding of the event-driven backtest core of the `quant`
repository: the portfolio ledger (`src/engine/portfolio.py`), the
simulated broker (`src/broker/simulated.py`), the data-loader validation
(`src/data/base.py`) and the engine's signal sizing
(`src/engine/engine.py`).  Python floats are modelled as rationals;
Python `round(x, d)` (round half to even) is `roundTo d x`; Python
`int(x)` on a float is truncation toward zero (`truncInt`); Python `//`
on ints is floor division (`Int.fdiv`).
-/

namespace Quant

/-- Round a rational to the nearest integer, ties to even
(the behaviour of Python's built-in `round`). -/
def roundHalfEven (x : ℚ) : ℤ :=
  let f : ℤ := ⌊x⌋
  let frac : ℚ := x - f
  if frac < 1/2 then f
  else if 1/2 < frac then f + 1
  else if f % 2 = 0 then f else f + 1

/-- Python `round(x, d)`: round to `d` decimal places, ties to even. -/
def roundTo (d : ℕ) (x : ℚ) : ℚ :=
  (roundHalfEven (x * 10 ^ d) : ℚ) / 10 ^ d

/-- Python `int(x)` on a float: truncation toward zero. -/
def truncInt (x : ℚ) : ℤ :=
  if 0 ≤ x then ⌊x⌋ else ⌈x⌉

/-- `src/engine/portfolio.py` `Trade`: one recorded trade. -/
structure Trade where
  datetime : ℤ
  symbol : String
  direction : String
  price : ℚ
  quantity : ℤ
  commission : ℚ
  slippage : ℚ
deriving Repr, DecidableEq

/-- One row of the equity curve appended by `update_market_value`. -/
structure EquityPoint where
  datetime : ℤ
  cash : ℚ
  market_value : ℚ
  total_equity : ℚ
  position : ℤ
deriving Repr, DecidableEq

/-- `src/engine/event.py` `FillEvent`. -/
structure FillEvent where
  datetime : ℤ
  symbol : String
  direction : String
  quantity : ℤ
  fill_price : ℚ
  commission : ℚ
  slippage_cost : ℚ
deriving Repr, DecidableEq

/-- `src/engine/event.py` `OrderEvent` (`price` is the limit price). -/
structure OrderEvent where
  datetime : ℤ
  symbol : String
  direction : String
  order_type : String
  quantity : ℤ
  price : ℚ
deriving Repr, DecidableEq

/-- `src/engine/event.py` `SignalEvent`. -/
structure SignalEvent where
  datetime : ℤ
  symbol : String
  direction : String
  volume : ℤ
  order_type : String
  limit_price : ℚ
deriving Repr, DecidableEq

/-- The fields of the current bar used by the broker and engine
(a row of the OHLCV table). -/
structure Bar where
  low : ℚ
  high : ℚ
  close : ℚ
deriving Repr, DecidableEq

/-- `src/engine/portfolio.py` `Portfolio`: the full mutable state of the
ledger, including configuration, position, trade history and equity curve. -/
structure Portfolio where
  initial_capital : ℚ
  cash : ℚ
  commission_rate : ℚ
  slippage : ℚ
  min_commission : ℚ
  stamp_tax : ℚ
  market : String
  position : ℤ
  position_avg_cost : ℚ
  trades : List Trade
  equity_curve : List EquityPoint
deriving Repr, DecidableEq

namespace Portfolio

/-- `Portfolio.__init__` (defaults `min_commission=5.0`, `stamp_tax=0.001`
are supplied by the callers that use them). -/
def init (initial_capital commission_rate slippage min_commission stamp_tax : ℚ)
    (market : String) : Portfolio :=
  { initial_capital := initial_capital
    cash := initial_capital
    commission_rate := commission_rate
    slippage := slippage
    min_commission := min_commission
    stamp_tax := stamp_tax
    market := market
    position := 0
    position_avg_cost := 0
    trades := []
    equity_curve := [] }

/-- `Portfolio.calculate_slippage`: price slides up on BUY, down otherwise. -/
def calculate_slippage (p : Portfolio) (price : ℚ) (direction : String) : ℚ :=
  if direction = "BUY" then roundTo 4 (price * (1 + p.slippage))
  else roundTo 4 (price * (1 - p.slippage))

/-- `Portfolio.calculate_commission`: market "A" has a floor and a
sell-side stamp tax; any other market is purely proportional.
The result is rounded to 2 decimal places. -/
def calculate_commission (p : Portfolio) (price : ℚ) (quantity : ℤ)
    (direction : String) : ℚ :=
  let trade_amount := price * (quantity : ℚ)
  if p.market = "A" then
    let commission := max (trade_amount * p.commission_rate) p.min_commission
    let commission :=
      if direction = "SELL" then commission + trade_amount * p.stamp_tax
      else commission
    roundTo 2 commission
  else
    roundTo 2 (trade_amount * p.commission_rate)

/-- The `Trade` record appended by `execute_fill`. -/
def tradeOf (f : FillEvent) : Trade :=
  { datetime := f.datetime
    symbol := f.symbol
    direction := f.direction
    price := f.fill_price
    quantity := f.quantity
    commission := f.commission
    slippage := f.slippage_cost }

/-- `Portfolio.execute_fill`: apply a fill to the ledger.  Returns
`(accepted, new state)`; a rejected fill (`false`) leaves the state as
it was, mirroring the early `return False` paths of the Python code. -/
def execute_fill (p : Portfolio) (f : FillEvent) : Bool × Portfolio :=
  let cost := f.fill_price * (f.quantity : ℚ)
  if f.direction = "BUY" then
    let total_cost := cost + f.commission
    if p.cash < total_cost then (false, p)
    else
      let total_value := p.position_avg_cost * (p.position : ℚ) + cost
      let newPosition := p.position + f.quantity
      let newAvg :=
        if 0 < newPosition then total_value / (newPosition : ℚ)
        else p.position_avg_cost
      (true,
        { p with
            position := newPosition
            position_avg_cost := newAvg
            cash := p.cash - total_cost
            trades := p.trades ++ [tradeOf f] })
  else if f.direction = "SELL" then
    if p.position < f.quantity then (false, p)
    else
      let revenue := cost - f.commission
      let newPosition := p.position - f.quantity
      let newAvg := if newPosition = 0 then 0 else p.position_avg_cost
      (true,
        { p with
            cash := p.cash + revenue
            position := newPosition
            position_avg_cost := newAvg
            trades := p.trades ++ [tradeOf f] })
  else
    (true, { p with trades := p.trades ++ [tradeOf f] })

/-- `Portfolio.update_market_value`: append one equity-curve row
(rounded to 2 decimals, as in the source). -/
def update_market_value (p : Portfolio) (datetime : ℤ) (close_price : ℚ) :
    Portfolio :=
  let market_value := (p.position : ℚ) * close_price
  let total_equity := p.cash + market_value
  { p with
      equity_curve := p.equity_curve ++
        [{ datetime := datetime
           cash := roundTo 2 p.cash
           market_value := roundTo 2 market_value
           total_equity := roundTo 2 total_equity
           position := p.position }] }

end Portfolio

/-- `src/broker/simulated.py` `SimulatedBroker`: its only state is the
order counter incremented on every call. -/
structure SimulatedBroker where
  order_count : ℤ
deriving Repr, DecidableEq

/-- Step 1 of `SimulatedBroker.execute_order`: the base fill price before
slippage, `none` when the order cannot execute on this bar (limit not
touched, or unsupported order type).  Any non-BUY direction of a LIMIT
order takes the sell branch, as in the source's `else`. -/
def baseFillPrice (order : OrderEvent) (bar : Bar) : Option ℚ :=
  if order.order_type = "MARKET" then some bar.close
  else if order.order_type = "LIMIT" then
    if order.direction = "BUY" then
      if order.price < bar.low then none
      else some (min order.price bar.close)
    else
      if bar.high < order.price then none
      else some (max order.price bar.close)
  else none

namespace SimulatedBroker

/-- `SimulatedBroker.execute_order`: returns the broker (with its counter
bumped), the portfolio — which the source only reads, never writes — and
the fill, `none` on rejection. -/
def execute_order (b : SimulatedBroker) (order : OrderEvent) (bar : Bar)
    (p : Portfolio) : SimulatedBroker × Portfolio × Option FillEvent :=
  let b' : SimulatedBroker := { order_count := b.order_count + 1 }
  match baseFillPrice order bar with
  | none => (b', p, none)
  | some fill_price =>
    let actual_price := p.calculate_slippage fill_price order.direction
    let commission := p.calculate_commission actual_price order.quantity order.direction
    if order.direction = "BUY" ∧
        p.cash < actual_price * (order.quantity : ℚ) + commission then
      (b', p, none)
    else if order.direction = "SELL" ∧ p.position < order.quantity then
      (b', p, none)
    else
      let slippage_cost := |actual_price - fill_price| * (order.quantity : ℚ)
      (b', p, some
        { datetime := order.datetime
          symbol := order.symbol
          direction := order.direction
          quantity := order.quantity
          fill_price := actual_price
          commission := commission
          slippage_cost := slippage_cost })

end SimulatedBroker

/-- A cell of the bar table: `none` models a missing value (NaN). -/
abbrev Cell := Option ℚ

/-- A row of the bar table: a timestamp and named cells. -/
abbrev Row := ℤ × List (String × Cell)

/-- Model of the `pandas.DataFrame` handed to `DataLoader.validate`:
whether the index is a `DatetimeIndex`, the column names, and the rows. -/
structure DataFrame where
  isDatetimeIndex : Bool
  columns : List String
  rows : List Row
deriving Repr, DecidableEq

/-- `DataLoader.REQUIRED_COLUMNS`. -/
def REQUIRED_COLUMNS : List String := ["open", "high", "low", "close", "volume"]

/-- Stable insertion into a timestamp-sorted row list (equal keys keep
their original relative order), modelling `DataFrame.sort_index`. -/
def insertByTs (x : Row) : List Row → List Row
  | [] => [x]
  | y :: ys => if x.1 ≤ y.1 then x :: y :: ys else y :: insertByTs x ys

/-- Stable sort of rows by ascending timestamp (`df.sort_index()`). -/
def sortByTs : List Row → List Row
  | [] => []
  | x :: xs => insertByTs x (sortByTs xs)

/-- Whether a row has a (non-NaN) value in the given column. -/
def rowHasValue (r : Row) (c : String) : Bool :=
  match r.2.lookup c with
  | some (some _) => true
  | _ => false

/-- `DataLoader.validate` (`src/data/base.py`): raises on a missing
required column or a non-`DatetimeIndex` index; otherwise sorts by
timestamp ascending and drops rows with a missing value in a required
column (`dropna`), then coerces to numeric (identity in this model). -/
def DataLoader.validate (df : DataFrame) : Except String DataFrame :=
  match REQUIRED_COLUMNS.find? (fun c => !(df.columns.contains c)) with
  | some c => Except.error ("missing required column: " ++ c)
  | none =>
    if !df.isDatetimeIndex then Except.error "index must be DatetimeIndex"
    else
      let sorted := sortByTs df.rows
      let kept := sorted.filter (fun r => REQUIRED_COLUMNS.all (rowHasValue r))
      Except.ok { df with rows := kept }

/-- `true` iff `DataLoader.validate` raises on this input. -/
def validateFails (df : DataFrame) : Bool :=
  match DataLoader.validate df with
  | Except.error _ => true
  | Except.ok _ => false

/-- The part of `BacktestEngine` state relevant to construction. -/
structure BacktestEngine where
  data : DataFrame
  portfolio : Portfolio
  market : String
  symbol : String
deriving Repr, DecidableEq

/-- `BacktestEngine.__init__` (`src/engine/engine.py`): builds the
portfolio from the given capital with the loader's data as-is.  It is a
total function: the source performs no validation of `capital` or `data`. -/
def BacktestEngine.init (data : DataFrame) (capital commission slippage : ℚ)
    (market symbol : String) : BacktestEngine :=
  { data := data
    portfolio := Portfolio.init capital commission slippage 5 (1/1000) market
    market := market
    symbol := symbol }

/-- `BacktestEngine._calculate_order_quantity`: SELL sizes to the whole
position; BUY spends 95% of cash at the bar close, truncated to 100-share
lots on market "A", clamped at 0 (and 0 when the close is non-positive). -/
def calculate_order_quantity (p : Portfolio) (market : String)
    (signal : SignalEvent) (bar : Bar) : ℤ :=
  if signal.direction = "SELL" then p.position
  else
    let available := p.cash * (95/100)
    if bar.close ≤ 0 then 0
    else
      let quantity := truncInt (available / bar.close)
      let quantity := if market = "A" then (Int.fdiv quantity 100) * 100 else quantity
      max quantity 0

/-- `BacktestEngine._handle_signal`: the requested volume, auto-sized when
non-positive; emits no order when the final quantity is non-positive. -/
def handle_signal (p : Portfolio) (market : String) (signal : SignalEvent)
    (bar : Bar) : Option OrderEvent :=
  let quantity :=
    if signal.volume ≤ 0 then calculate_order_quantity p market signal bar
    else signal.volume
  if quantity ≤ 0 then none
  else some
    { datetime := signal.datetime
      symbol := signal.symbol
      direction := signal.direction
      order_type := signal.order_type
      quantity := quantity
      price := signal.limit_price }

section Inputs

/-- A ledger with zero cash holding one share (market "A" defaults). -/
def pC1 : Portfolio :=
  { Portfolio.init 0 (3/10000) (1/1000) 5 (1/1000) "A" with
      position := 1, position_avg_cost := 1 }

/-- A market SELL order for one share. -/
def orderC1 : OrderEvent := ⟨0, "S", "SELL", "MARKET", 1, 0⟩

/-- A bar whose prices are all 1. -/
def barC1 : Bar := ⟨1, 1, 1⟩

/-- A fresh broker. -/
def brokerC1 : SimulatedBroker := ⟨0⟩

/-- The fill the broker produces for `orderC1` on `barC1` against `pC1`:
price 0.999 after slippage, commission 5 (the floor dominates). -/
def fillC1 : FillEvent := ⟨0, "S", "SELL", 1, 999/1000, 5, 1/1000⟩

/-- A funded ledger (cash 100). -/
def pW : Portfolio := Portfolio.init 100 (3/10000) (1/1000) 5 (1/1000) "A"

/-- An affordable BUY fill against `pW`. -/
def fillW : FillEvent := ⟨0, "S", "BUY", 1, 1, 1, 0⟩

/-- An unaffordable BUY fill against `pC1` (zero cash). -/
def fillZ : FillEvent := ⟨0, "S", "BUY", 1, 1, 0, 0⟩

/-- A fill with a direction that is neither BUY nor SELL. -/
def fillH : FillEvent := ⟨0, "S", "HOLD", 1, 1, 0, 0⟩

end Inputs

/-- C1 counterexample: the broker produces a SELL fill (commission floor 5
exceeding the 0.999 proceeds) that the ledger accepts although it drives
cash from 0 to −4.001: the claimed invariant cash ≥ 0 fails. -/
theorem C1_counterexample :
    (SimulatedBroker.execute_order brokerC1 orderC1 barC1 pC1).2.2 = some fillC1 ∧
    (pC1.execute_fill fillC1).1 = true ∧
    (pC1.execute_fill fillC1).2.cash < 0 ∧
    0 ≤ pC1.cash ∧ 0 < pC1.position := by
  simp [brokerC1, orderC1, barC1, pC1, fillC1, Portfolio.init,
    SimulatedBroker.execute_order, baseFillPrice, Portfolio.calculate_slippage,
    Portfolio.calculate_commission, Portfolio.execute_fill, Portfolio.tradeOf,
    roundTo, roundHalfEven]
  norm_num [Int.fract]

/-- C1 (amended): after every accepted fill of nonnegative quantity,
position stays nonnegative, and cash stays nonnegative for every
direction except SELL — an accepted SELL whose commission exceeds the
proceeds can leave cash negative. -/
theorem C1_position_cash (p : Portfolio) (f : FillEvent)
    (hc : 0 ≤ p.cash) (hp : 0 ≤ p.position) (hq : 0 ≤ f.quantity)
    (hacc : (p.execute_fill f).1 = true) :
    0 ≤ (p.execute_fill f).2.position ∧
      (f.direction ≠ "SELL" → 0 ≤ (p.execute_fill f).2.cash) := by
  simp only [Portfolio.execute_fill] at hacc ⊢
  split_ifs at hacc ⊢ with h1 h2 h3 h4 h5 h6 <;>
    dsimp only at hacc ⊢ <;>
    first
      | exact absurd hacc (by decide)
      | exact ⟨by omega, fun _ => by linarith [not_lt.mp h2]⟩
      | exact ⟨by omega, fun hne => absurd h4 hne⟩
      | exact ⟨hp, fun _ => hc⟩

/-- Witness for the amended C1 theorem at a concrete accepted BUY fill. -/
theorem C1_position_cash_witness :
    0 ≤ (pW.execute_fill fillW).2.position ∧
      (fillW.direction ≠ "SELL" → 0 ≤ (pW.execute_fill fillW).2.cash) :=
  C1_position_cash pW fillW (by norm_num [pW, Portfolio.init])
    (by norm_num [pW, Portfolio.init]) (by norm_num [fillW])
    (by norm_num [pW, fillW, Portfolio.init, Portfolio.execute_fill])

/-- C2: a rejected fill (`execute_fill` returning `false`) leaves the
whole portfolio state — cash, position, average cost, trade history and
equity curve — unchanged (all-or-nothing). -/
theorem C2_rejection_atomic (p : Portfolio) (f : FillEvent)
    (h : (p.execute_fill f).1 = false) :
    (p.execute_fill f).2 = p := by
  simp only [Portfolio.execute_fill] at h ⊢
  split_ifs at h ⊢ <;> simp_all

/-- Witness for C2 at a concrete rejected fill (BUY with zero cash). -/
theorem C2_rejection_atomic_witness :
    (pC1.execute_fill fillZ).2 = pC1 :=
  C2_rejection_atomic pC1 fillZ
    (by norm_num [pC1, fillZ, Portfolio.init, Portfolio.execute_fill])

/-- C10: a fill whose direction is neither BUY nor SELL is accepted
(`true`), appends a trade record, and leaves cash, position and average
cost untouched. -/
theorem C10_unknown_direction (p : Portfolio) (f : FillEvent)
    (h1 : f.direction ≠ "BUY") (h2 : f.direction ≠ "SELL") :
    (p.execute_fill f).1 = true ∧
    (p.execute_fill f).2.cash = p.cash ∧
    (p.execute_fill f).2.position = p.position ∧
    (p.execute_fill f).2.position_avg_cost = p.position_avg_cost ∧
    (p.execute_fill f).2.trades = p.trades ++ [Portfolio.tradeOf f] := by
  simp [Portfolio.execute_fill, h1, h2]

/-- Witness for C10 at a concrete "HOLD" fill. -/
theorem C10_unknown_direction_witness :
    (pW.execute_fill fillH).1 = true ∧
    (pW.execute_fill fillH).2.cash = pW.cash ∧
    (pW.execute_fill fillH).2.position = pW.position ∧
    (pW.execute_fill fillH).2.position_avg_cost = pW.position_avg_cost ∧
    (pW.execute_fill fillH).2.trades = pW.trades ++ [Portfolio.tradeOf fillH] :=
  C10_unknown_direction pW fillH (by decide) (by decide)

/-- C3: whenever the broker has determined a base fill price, a BUY whose
post-slippage cost plus commission exceeds cash, and a SELL whose quantity
exceeds the position, are rejected (`none`) with the portfolio untouched;
the checks read the pre-fill portfolio. -/
theorem C3_funds_position_check (b : SimulatedBroker) (order : OrderEvent)
    (bar : Bar) (p : Portfolio) (fp : ℚ)
    (hfp : baseFillPrice order bar = some fp)
    (h : (order.direction = "BUY" ∧
            p.cash < p.calculate_slippage fp order.direction * (order.quantity : ℚ) +
              p.calculate_commission (p.calculate_slippage fp order.direction)
                order.quantity order.direction) ∨
         (order.direction = "SELL" ∧ p.position < order.quantity)) :
    (SimulatedBroker.execute_order b order bar p).2.2 = none ∧
    (SimulatedBroker.execute_order b order bar p).2.1 = p := by
  simp only [SimulatedBroker.execute_order, hfp]
  split_ifs with h1 h2
  · exact ⟨rfl, rfl⟩
  · exact ⟨rfl, rfl⟩
  · rcases h with hb | hs
    · exact absurd hb h1
    · exact absurd hs h2

/-- Witness for C3: a 1-share market BUY against a zero-cash ledger is
rejected with no state change. -/
theorem C3_funds_position_check_witness :
    (SimulatedBroker.execute_order brokerC1 ⟨0, "S", "BUY", "MARKET", 1, 0⟩ barC1 pC1).2.2 = none ∧
    (SimulatedBroker.execute_order brokerC1 ⟨0, "S", "BUY", "MARKET", 1, 0⟩ barC1 pC1).2.1 = pC1 :=
  C3_funds_position_check brokerC1 ⟨0, "S", "BUY", "MARKET", 1, 0⟩ barC1 pC1 1
    (by simp [baseFillPrice, barC1])
    (Or.inl (by
      constructor
      · rfl
      · simp [pC1, Portfolio.init, Portfolio.calculate_slippage,
          Portfolio.calculate_commission, roundTo, roundHalfEven]
        norm_num [Int.fract]))

/-- C4: a LIMIT BUY is rejected when the limit is below the bar low and
otherwise its base fill price is `min limit close`; a LIMIT SELL is
rejected when the limit is above the bar high and otherwise its base fill
price is `max limit close`. -/
theorem C4_limit_matching (b : SimulatedBroker) (order : OrderEvent)
    (bar : Bar) (p : Portfolio) (hty : order.order_type = "LIMIT") :
    (order.direction = "BUY" →
      (order.price < bar.low →
        (SimulatedBroker.execute_order b order bar p).2.2 = none) ∧
      (bar.low ≤ order.price →
        baseFillPrice order bar = some (min order.price bar.close))) ∧
    (order.direction = "SELL" →
      (bar.high < order.price →
        (SimulatedBroker.execute_order b order bar p).2.2 = none) ∧
      (order.price ≤ bar.high →
        baseFillPrice order bar = some (max order.price bar.close))) := by
  constructor
  · intro hb
    constructor
    · intro hlow
      simp [SimulatedBroker.execute_order, baseFillPrice, hty, hb, hlow]
    · intro hlow
      simp [baseFillPrice, hty, hb, not_lt.mpr hlow]
  · intro hs
    have hnb : order.direction ≠ "BUY" := by rw [hs]; decide
    constructor
    · intro hhigh
      simp [SimulatedBroker.execute_order, baseFillPrice, hty, hnb, hhigh]
    · intro hhigh
      simp [baseFillPrice, hty, hnb, not_lt.mpr hhigh]

/-- Witness for C4: a LIMIT BUY priced below the bar low is rejected, and
one priced within range gets base price `min limit close`. -/
theorem C4_limit_matching_witness :
    ((⟨0, "S", "BUY", "LIMIT", 1, 1⟩ : OrderEvent).direction = "BUY" →
      ((⟨0, "S", "BUY", "LIMIT", 1, 1⟩ : OrderEvent).price < (⟨2, 3, 5/2⟩ : Bar).low →
        (SimulatedBroker.execute_order brokerC1 ⟨0, "S", "BUY", "LIMIT", 1, 1⟩ ⟨2, 3, 5/2⟩ pW).2.2 = none) ∧
      ((⟨2, 3, 5/2⟩ : Bar).low ≤ (⟨0, "S", "BUY", "LIMIT", 1, 1⟩ : OrderEvent).price →
        baseFillPrice ⟨0, "S", "BUY", "LIMIT", 1, 1⟩ ⟨2, 3, 5/2⟩ =
          some (min (⟨0, "S", "BUY", "LIMIT", 1, 1⟩ : OrderEvent).price (⟨2, 3, 5/2⟩ : Bar).close))) ∧
    ((⟨0, "S", "BUY", "LIMIT", 1, 1⟩ : OrderEvent).direction = "SELL" →
      ((⟨2, 3, 5/2⟩ : Bar).high < (⟨0, "S", "BUY", "LIMIT", 1, 1⟩ : OrderEvent).price →
        (SimulatedBroker.execute_order brokerC1 ⟨0, "S", "BUY", "LIMIT", 1, 1⟩ ⟨2, 3, 5/2⟩ pW).2.2 = none) ∧
      ((⟨0, "S", "BUY", "LIMIT", 1, 1⟩ : OrderEvent).price ≤ (⟨2, 3, 5/2⟩ : Bar).high →
        baseFillPrice ⟨0, "S", "BUY", "LIMIT", 1, 1⟩ ⟨2, 3, 5/2⟩ =
          some (max (⟨0, "S", "BUY", "LIMIT", 1, 1⟩ : OrderEvent).price (⟨2, 3, 5/2⟩ : Bar).close))) :=
  C4_limit_matching brokerC1 ⟨0, "S", "BUY", "LIMIT", 1, 1⟩ ⟨2, 3, 5/2⟩ pW rfl

/-- C9: the broker never writes the portfolio (fill or reject), and the
per-bar snapshot only appends one equity-curve row, leaving cash,
position, average cost and trade history unchanged. -/
theorem C9_only_execute_fill_writes (b : SimulatedBroker) (order : OrderEvent)
    (bar : Bar) (p : Portfolio) (t : ℤ) (c : ℚ) :
    (SimulatedBroker.execute_order b order bar p).2.1 = p ∧
    (p.update_market_value t c).cash = p.cash ∧
    (p.update_market_value t c).position = p.position ∧
    (p.update_market_value t c).position_avg_cost = p.position_avg_cost ∧
    (p.update_market_value t c).trades = p.trades ∧
    (p.update_market_value t c).equity_curve = p.equity_curve ++
      [{ datetime := t
         cash := roundTo 2 p.cash
         market_value := roundTo 2 ((p.position : ℚ) * c)
         total_equity := roundTo 2 (p.cash + (p.position : ℚ) * c)
         position := p.position }] := by
  refine ⟨?_, rfl, rfl, rfl, rfl, rfl⟩
  simp only [SimulatedBroker.execute_order]
  cases hE : baseFillPrice order bar
  · rfl
  · dsimp only
    split_ifs <;> rfl

/-- The commission of the natural-language fee specification, before any
rounding: floor and sell-side tax on market "A", purely proportional
otherwise. -/
def specCommission (market : String) (rate minc tax price : ℚ) (qty : ℤ)
    (dir : String) : ℚ :=
  let trade_amount := price * (qty : ℚ)
  if market = "A" then
    max (trade_amount * rate) minc +
      (if dir = "SELL" then trade_amount * tax else 0)
  else
    trade_amount * rate

/-- A proportional-market (US) ledger used for the C7 counterexample. -/
def pUS : Portfolio := Portfolio.init 100 (3/10000) (1/1000) 5 (1/1000) "US"

/-- C7 counterexample: for a 1-share trade at price 1 in the proportional
market the code returns a commission of 0 (rounded to 2 decimals), not
the exact `trade_amount * rate = 0.0003` of the claim. -/
theorem C7_counterexample :
    pUS.calculate_commission 1 1 "BUY" = 0 ∧
    (1 : ℚ) * (1 : ℚ) * (3/10000) ≠ 0 := by
  constructor
  · simp [pUS, Portfolio.init, Portfolio.calculate_commission, roundTo,
      roundHalfEven]
    norm_num [Int.fract]
  · norm_num

/-- C7 (amended): the computed commission equals the specification's
per-market formula rounded to 2 decimal places. -/
theorem C7_commission_formula (p : Portfolio) (price : ℚ) (qty : ℤ)
    (dir : String) :
    p.calculate_commission price qty dir =
      roundTo 2 (specCommission p.market p.commission_rate p.min_commission
        p.stamp_tax price qty dir) := by
  simp only [Portfolio.calculate_commission, specCommission]
  split_ifs <;> ring_nf

/-- Cells of a complete row (all required values present), value 1. -/
def cellsA : List (String × Cell) :=
  [("open", some 1), ("high", some 1), ("low", some 1), ("close", some 1),
   ("volume", some 1)]

/-- Cells of a complete row, value 2. -/
def cellsB : List (String × Cell) :=
  [("open", some 2), ("high", some 2), ("low", some 2), ("close", some 2),
   ("volume", some 2)]

/-- Cells of a row with a missing value (NaN) in the required column
`close`. -/
def cellsC : List (String × Cell) :=
  [("open", some 3), ("high", some 3), ("low", some 3), ("close", none),
   ("volume", some 3)]

/-- A malformed bar table: duplicate timestamps (5, 5), non-monotonic
order (5 before 3), and a missing value in row 3. -/
def dfDup : DataFrame :=
  { isDatetimeIndex := true
    columns := REQUIRED_COLUMNS
    rows := [(5, cellsA), (5, cellsB), (3, cellsC)] }

/-- What `validate` returns on `dfDup`: sorted, NaN row dropped,
duplicates kept — no error. -/
def dfDupOut : DataFrame :=
  { isDatetimeIndex := true
    columns := REQUIRED_COLUMNS
    rows := [(5, cellsA), (5, cellsB)] }

/-- C5 counterexample: a table with duplicate and non-monotonic
timestamps and a missing required value passes validation (sorted, NaN
row silently dropped), and the engine accepts a negative initial capital
without any error. -/
theorem C5_counterexample :
    DataLoader.validate dfDup = Except.ok dfDupOut ∧
    dfDup.rows.map Prod.fst = [5, 5, 3] ∧
    (BacktestEngine.init dfDup (-1) (3/10000) (1/1000) "A" "S").portfolio.cash = -1 :=
  ⟨rfl, rfl, rfl⟩

/-- C5 (amended): construction raises exactly for a missing required
column or a non-DatetimeIndex input; the engine itself accepts any
initial capital (it becomes the starting cash unchecked). -/
theorem C5_construction_errors (df : DataFrame)
    (capital commission slippage : ℚ) (market symbol : String) :
    (validateFails df = true ↔
      ("open" ∉ df.columns ∨ "high" ∉ df.columns ∨ "low" ∉ df.columns ∨
       "close" ∉ df.columns ∨ "volume" ∉ df.columns ∨
       df.isDatetimeIndex = false)) ∧
    (BacktestEngine.init df capital commission slippage market symbol).portfolio.cash
      = capital := by
  constructor
  · unfold validateFails DataLoader.validate REQUIRED_COLUMNS
    by_cases h1 : "open" ∈ df.columns <;>
    by_cases h2 : "high" ∈ df.columns <;>
    by_cases h3 : "low" ∈ df.columns <;>
    by_cases h4 : "close" ∈ df.columns <;>
    by_cases h5 : "volume" ∈ df.columns <;>
    cases h6 : df.isDatetimeIndex <;>
      simp [List.find?, h1, h2, h3, h4, h5, h6]
  · rfl

/-- The BUY sizing formula as the specification words it: floor of 95% of
cash at the close, truncated down to a 100-share lot on market "A". -/
def specBuyQuantity (market : String) (cash close : ℚ) : ℤ :=
  let q := ⌊cash * (95/100) / close⌋
  if market = "A" then (Int.fdiv q 100) * 100 else q

/-- C6: with requested quantity 0, a SELL sizes to the whole position; a
BUY sizes to the specification's formula (floor of 95% of cash at the
close, lot-truncated on market "A"), and a computed BUY quantity of 0
emits no order. -/
theorem C6_signal_sizing (p : Portfolio) (market : String)
    (signal : SignalEvent) (bar : Bar)
    (hvol : signal.volume = 0) (hclose : 0 < bar.close) (hcash : 0 ≤ p.cash) :
    (signal.direction = "SELL" →
      calculate_order_quantity p market signal bar = p.position) ∧
    (signal.direction = "BUY" →
      calculate_order_quantity p market signal bar =
        specBuyQuantity market p.cash bar.close ∧
      (specBuyQuantity market p.cash bar.close = 0 →
        handle_signal p market signal bar = none)) := by
  constructor
  · intro hs
    simp [calculate_order_quantity, hs]
  · intro hb
    have hns : ¬ signal.direction = "SELL" := by rw [hb]; decide
    have hdiv : (0:ℚ) ≤ p.cash * (95/100) / bar.close :=
      div_nonneg (mul_nonneg hcash (by norm_num)) hclose.le
    have hfl : 0 ≤ ⌊p.cash * (95/100) / bar.close⌋ := Int.floor_nonneg.mpr hdiv
    have hq : calculate_order_quantity p market signal bar =
        specBuyQuantity market p.cash bar.close := by
      simp only [calculate_order_quantity, specBuyQuantity]
      rw [if_neg hns, if_neg (not_le.mpr hclose)]
      simp only [truncInt]
      rw [if_pos hdiv]
      by_cases hm : market = "A"
      · rw [if_pos hm]
        refine max_eq_left (mul_nonneg ?_ (by norm_num))
        rw [Int.fdiv_eq_ediv _ (by norm_num)]
        exact Int.ediv_nonneg hfl (by norm_num)
      · rw [if_neg hm]
        exact max_eq_left hfl
    refine ⟨hq, fun h0 => ?_⟩
    simp only [handle_signal, hvol]
    rw [if_pos (by norm_num : (0:ℤ) ≤ 0), hq, h0]
    simp

/-- A funded "A"-market ledger for the C6 witness. -/
def pC6 : Portfolio := Portfolio.init 100000 (3/10000) (1/1000) 5 (1/1000) "A"

/-- An unsized BUY signal for the C6 witness. -/
def sigC6 : SignalEvent := ⟨0, "S", "BUY", 0, "MARKET", 0⟩

/-- Witness for C6 at a concrete unsized BUY signal. -/
theorem C6_signal_sizing_witness :
    (sigC6.direction = "SELL" →
      calculate_order_quantity pC6 "A" sigC6 ⟨9, 11, 10⟩ = pC6.position) ∧
    (sigC6.direction = "BUY" →
      calculate_order_quantity pC6 "A" sigC6 ⟨9, 11, 10⟩ =
        specBuyQuantity "A" pC6.cash (10:ℚ) ∧
      (specBuyQuantity "A" pC6.cash (10:ℚ) = 0 →
        handle_signal pC6 "A" sigC6 ⟨9, 11, 10⟩ = none)) :=
  C6_signal_sizing pC6 "A" sigC6 ⟨9, 11, 10⟩ rfl (by norm_num)
    (by norm_num [pC6, Portfolio.init])

/-- C8: `execute_fill` preserves the invariant position = 0 ⇔
position_avg_cost = 0 (for accepted fills of positive quantity and
price); a SELL reaching position 0 resets the average cost to 0, and a
BUY leaves both positive. -/
theorem C8_avg_cost_inv (p : Portfolio) (f : FillEvent)
    (hiff : p.position = 0 ↔ p.position_avg_cost = 0)
    (hpos : 0 ≤ p.position) (havg : 0 ≤ p.position_avg_cost)
    (hq : 0 < f.quantity) (hpr : 0 < f.fill_price)
    (hacc : (p.execute_fill f).1 = true) :
    ((p.execute_fill f).2.position = 0 ↔
      (p.execute_fill f).2.position_avg_cost = 0) ∧
    (f.direction = "SELL" → (p.execute_fill f).2.position = 0 →
      (p.execute_fill f).2.position_avg_cost = 0) ∧
    (f.direction = "BUY" →
      0 < (p.execute_fill f).2.position ∧
      0 < (p.execute_fill f).2.position_avg_cost) := by
  simp only [Portfolio.execute_fill] at hacc ⊢
  split_ifs at hacc ⊢ with h1 h2 h3 h4 h5 h6 <;> dsimp only at hacc ⊢
  · have hnum : (0:ℚ) <
        p.position_avg_cost * (p.position : ℚ) + f.fill_price * (f.quantity : ℚ) :=
      add_pos_of_nonneg_of_pos
        (mul_nonneg havg (by exact_mod_cast hpos))
        (mul_pos hpr (by exact_mod_cast hq))
    have hden : (0:ℚ) < ((p.position + f.quantity : ℤ) : ℚ) := by
      exact_mod_cast h3
    have havg' : (0:ℚ) <
        (p.position_avg_cost * (p.position : ℚ) + f.fill_price * (f.quantity : ℚ)) /
          ((p.position + f.quantity : ℤ) : ℚ) := div_pos hnum hden
    refine ⟨⟨fun h => absurd h (by omega), fun h => absurd h (ne_of_gt havg')⟩,
      fun hS => ?_, fun _ => ⟨by omega, havg'⟩⟩
    rw [hS] at h1
    exact absurd h1 (by decide)
  · exact absurd (by omega : 0 < p.position + f.quantity) h3
  · refine ⟨⟨fun _ => rfl, fun _ => by omega⟩, fun _ _ => rfl, fun hB => ?_⟩
    exact absurd hB h1
  · refine ⟨⟨fun h => absurd h h6, fun h => absurd (hiff.mpr h) (by omega)⟩,
      fun _ h => absurd h h6, fun hB => absurd hB h1⟩
  · exact ⟨hiff, fun hS => absurd hS h4, fun hB => absurd hB h1⟩

/-- Witness for C8 at a concrete accepted BUY fill. -/
theorem C8_avg_cost_inv_witness :
    ((pW.execute_fill fillW).2.position = 0 ↔
      (pW.execute_fill fillW).2.position_avg_cost = 0) ∧
    (fillW.direction = "SELL" → (pW.execute_fill fillW).2.position = 0 →
      (pW.execute_fill fillW).2.position_avg_cost = 0) ∧
    (fillW.direction = "BUY" →
      0 < (pW.execute_fill fillW).2.position ∧
      0 < (pW.execute_fill fillW).2.position_avg_cost) :=
  C8_avg_cost_inv pW fillW (by norm_num [pW, Portfolio.init])
    (by norm_num [pW, Portfolio.init]) (by norm_num [pW, Portfolio.init])
    (by norm_num [fillW]) (by norm_num [fillW])
    (by norm_num [pW, fillW, Portfolio.init, Portfolio.execute_fill])

end Quant
